import Mathlib

/-!
# Temporal metric collector (`temporal/temporal.go`)

A shallow embedding of the `MetricCollector` adapter: its fields, `NewMetricCollector`,
`Open`, `Close`, `Name` and `CollectMetric`.  The adapter talks to four collaborators that
live outside the file (`tls.X509KeyPair`, `client.Dial`, `fas.ExpandMetricQuery` and the
methods of `client.Client`).  They are gathered in an environment record `Env`, and every
call made to one of them is appended to a log of `Event`s, so that statements such as
"the dial is not invoked" or "the transport is called once" can be read off the log.
-/

namespace Temporal

/-! ## Values exchanged with the collaborators -/

/-- Go `error` values that are not nil: either built by `fmt.Errorf` from a constant
message, or produced by a collaborator and identified by a code. -/
inductive GoError where
  | errorf (msg : String)
  | foreign (code : Nat)
  deriving DecidableEq, Repr

/-- A parsed `tls.Certificate`, identified by a number chosen by the parser. -/
structure Certificate where
  id : Nat
  deriving DecidableEq, Repr

/-- The part of `tls.Config` the adapter sets: the client certificate list.
`&tls.Config{}` is the record with the empty list. -/
structure TLSConfig where
  Certificates : List Certificate
  deriving DecidableEq, Repr

/-- A `context.Context`: the outgoing gRPC metadata it carries (key/value pairs in the
order they were appended) and a tag standing for everything else it holds. -/
structure Context where
  tag : Nat
  outgoingMD : List (String × String)
  deriving DecidableEq, Repr

/-- The `metadata.AppendToOutgoingContext(ctx, k, v)` call: the same context with the pair
added at the end of its outgoing metadata. -/
def AppendToOutgoingContext (ctx : Context) (k v : String) : Context :=
  { ctx with outgoingMD := ctx.outgoingMD ++ [(k, v)] }

/-- A connection handle returned by `client.Dial` (a non-nil `client.Client`). -/
structure Client where
  handle : Nat
  deriving DecidableEq, Repr

/-- One unary call as the underlying invoker receives it. -/
structure UnaryCall where
  ctx : Context
  method : String
  req : Nat
  reply : Nat
  cc : Nat
  opts : List Nat
  deriving DecidableEq, Repr

/-- A `grpc.UnaryInvoker`: it receives the call and acts on the list of calls that reached
the wire, returning an error or nil. -/
abbrev UnaryInvoker : Type :=
  Context → String → Nat → Nat → Nat → List Nat → List UnaryCall → Option GoError × List UnaryCall

/-- The invoker that puts the call on the wire as it is and reports no error. -/
def sendOnWire : UnaryInvoker :=
  fun ctx method req reply cc opts wire =>
    (none, wire ++ [{ ctx := ctx, method := method, req := req, reply := reply, cc := cc, opts := opts }])

/-! ## The adapter -/

/-- The `MetricCollector` struct.  `client` is `none` for a nil handle; `Cert` and `Key`
are byte slices, of which only the length is inspected by the adapter (a nil slice
and an empty one both have length zero and both are the empty list). -/
structure MetricCollector where
  name : String
  client : Option Client
  Address : String
  Namespace : String
  Cert : List Nat
  Key : List Nat
  APIKey : String
  Query : String
  deriving DecidableEq, Repr

/-- A `grpc.UnaryClientInterceptor` installed by the adapter.  The Go closure captures the
receiver pointer `c`, so the first argument is the receiver as it is when the call is
intercepted. -/
abbrev UnaryClientInterceptor : Type :=
  MetricCollector → Context → String → Nat → Nat → Nat → UnaryInvoker → List Nat →
    List UnaryCall → Option GoError × List UnaryCall

/-- A `grpc.DialOption`; the adapter only ever builds `grpc.WithUnaryInterceptor`. -/
inductive DialOption where
  | WithUnaryInterceptor (f : UnaryClientInterceptor)

/-- The `client.Credentials` values; the adapter only ever builds
`client.NewAPIKeyStaticCredentials`. -/
inductive Credentials where
  | NewAPIKeyStaticCredentials (apiKey : String)
  deriving DecidableEq, Repr

/-- The `client.ConnectionOptions` fields the adapter sets. -/
structure ConnectionOptions where
  TLS : Option TLSConfig
  DialOptions : List DialOption

/-- The `client.Options` fields the adapter sets. -/
structure Options where
  HostPort : String
  Namespace : String
  ConnectionOptions : ConnectionOptions
  Credentials : Option Credentials

/-- The `workflowservice.CountWorkflowExecutionsRequest` message. -/
structure CountWorkflowExecutionsRequest where
  Query : String
  deriving DecidableEq, Repr

/-- The `workflowservice.CountWorkflowExecutionsResponse` message (`Count` is an int64). -/
structure CountWorkflowExecutionsResponse where
  Count : Int
  deriving DecidableEq, Repr

/-- A call made by the adapter to one of its collaborators. -/
inductive Event where
  | x509KeyPair (cert key : List Nat)
  | dial (opt : Options)
  | clientClose (cl : Client)
  | expandMetricQuery (ctx : Context) (query app : String)
  | countWorkflow (cl : Client) (ctx : Context) (req : CountWorkflowExecutionsRequest)

/-- The collaborators.  `X509KeyPair` and `ExpandMetricQuery` are functions of their
arguments; `Dial` and `CountWorkflow` reach the network, so their answer may also depend
on the calls made so far.  `Dial` returns the Go pair `(client, error)`. -/
structure Env where
  X509KeyPair : List Nat → List Nat → Except GoError Certificate
  Dial : List Event → Options → Option Client × Option GoError
  ExpandMetricQuery : Context → String → String → String
  CountWorkflow : List Event → Client → Context → CountWorkflowExecutionsRequest →
    Except GoError CountWorkflowExecutionsResponse

/-- The options handed to `client.Dial` in a log, in order. -/
def dialCalls : List Event → List Options
  | [] => []
  | Event.dial opt :: rest => opt :: dialCalls rest
  | _ :: rest => dialCalls rest

/-- The handles released through `client.Close` in a log, in order. -/
def closeCalls : List Event → List Client
  | [] => []
  | Event.clientClose cl :: rest => cl :: closeCalls rest
  | _ :: rest => closeCalls rest

/-- The count requests sent to the transport in a log, in order. -/
def countCalls : List Event → List (Client × Context × CountWorkflowExecutionsRequest)
  | [] => []
  | Event.countWorkflow cl ctx req :: rest => (cl, ctx, req) :: countCalls rest
  | _ :: rest => countCalls rest

/-- The calls to the query-expansion routine in a log, in order. -/
def expandCalls : List Event → List (Context × String × String)
  | [] => []
  | Event.expandMetricQuery ctx query app :: rest => (ctx, query, app) :: expandCalls rest
  | _ :: rest => expandCalls rest

/-- The calls to the key-pair parser in a log, in order. -/
def parseCalls : List Event → List (List Nat × List Nat)
  | [] => []
  | Event.x509KeyPair cert key :: rest => (cert, key) :: parseCalls rest
  | _ :: rest => parseCalls rest

/-- The `NewMetricCollector` constructor: `&MetricCollector{name: name}`. -/
def NewMetricCollector (name : String) : MetricCollector :=
  { name := name, client := none, Address := "", Namespace := "", Cert := [], Key := [],
    APIKey := "", Query := "" }

/-- The closure passed to `grpc.WithUnaryInterceptor` in `Open` (lines 68-77). -/
def namespaceInterceptor : UnaryClientInterceptor :=
  fun c ctx method req reply cc invoker opts =>
    invoker (AppendToOutgoingContext ctx "temporal-namespace" c.Namespace) method req reply cc opts

/-- Lines 63-83 of `Open`: the API-key branch applied to the options built so far. -/
def applyAPIKey (c : MetricCollector) (opt : Options) : Options :=
  if c.APIKey ≠ "" then
    { opt with
      ConnectionOptions :=
        { TLS := some { Certificates := [] },
          DialOptions := [DialOption.WithUnaryInterceptor namespaceInterceptor] },
      Credentials := some (Credentials.NewAPIKeyStaticCredentials c.APIKey) }
  else opt

/-- Lines 85-86 of `Open`: `c.client, err = client.Dial(opt); return err`. -/
def dialAndStore (env : Env) (c : MetricCollector) (opt : Options) (log : List Event) :
    Option GoError × MetricCollector × List Event :=
  let r := env.Dial log opt
  (r.2, { c with client := r.1 }, log ++ [Event.dial opt])

/-- The `Open` method: the returned error (`none` for nil), the receiver afterwards and
the log afterwards. -/
def Open (env : Env) (c : MetricCollector) (log : List Event) :
    Option GoError × MetricCollector × List Event :=
  if c.Address = "" then
    (some (GoError.errorf "temporal address required"), c, log)
  else if c.Namespace = "" then
    (some (GoError.errorf "temporal namespace required"), c, log)
  else
    let opt : Options :=
      { HostPort := c.Address, Namespace := c.Namespace,
        ConnectionOptions := { TLS := none, DialOptions := [] }, Credentials := none }
    if c.Cert.length ≠ 0 ∨ c.Key.length ≠ 0 then
      let log1 := log ++ [Event.x509KeyPair c.Cert c.Key]
      match env.X509KeyPair c.Cert c.Key with
      | Except.error err => (some err, c, log1)
      | Except.ok cert =>
        let opt1 : Options :=
          { opt with
            ConnectionOptions :=
              { opt.ConnectionOptions with TLS := some { Certificates := [cert] } } }
        dialAndStore env c (applyAPIKey c opt1) log1
    else
      dialAndStore env c (applyAPIKey c opt) log

/-- The `Close` method: the returned error, the receiver afterwards and the log
afterwards. -/
def Close (c : MetricCollector) (log : List Event) :
    Option GoError × MetricCollector × List Event :=
  match c.client with
  | some cl => (none, c, log ++ [Event.clientClose cl])
  | none => (none, c, log)

/-- The `Name` method. -/
def Name (c : MetricCollector) : String :=
  c.name

/-- The number of low bits that do not fit in a 53-bit significand: the least `e` with
`m / 2 ^ e < 2 ^ 53`, searched with `fuel` halvings (`fuel = m` is always enough). -/
def droppedBits : Nat → Nat → Nat
  | 0, _ => 0
  | fuel + 1, m => if m < 2 ^ 53 then 0 else droppedBits fuel (m / 2) + 1

/-- Rounding of a natural number to the nearest one with at most 53 significant bits,
ties to even: the magnitude of the float64 nearest to an integer. -/
def roundTo53Bits (m : Nat) : Nat :=
  let e := droppedBits m m
  let q := m / 2 ^ e
  let r := m % 2 ^ e
  if 2 * r > 2 ^ e ∨ (2 * r = 2 ^ e ∧ q % 2 = 1) then (q + 1) * 2 ^ e else q * 2 ^ e

/-- The Go conversion `float64(n)` of an integer.  The float64 obtained from an integer is
itself an integer, and it is represented here by that exact value. -/
def float64 (n : Int) : Int :=
  if n < 0 then -((roundTo53Bits n.natAbs : Nat) : Int) else ((roundTo53Bits n.natAbs : Nat) : Int)

/-- What a call of `CollectMetric` does: it returns `(value, err)`, or it panics on the nil
handle. -/
inductive CollectOutcome where
  | returned (value : Int) (err : Option GoError)
  | panicked
  deriving DecidableEq, Repr

/-- The query composed on lines 102-105 of `CollectMetric`. -/
def composeQuery (c : MetricCollector) : String :=
  let query := "ExecutionStatus=\"Running\""
  if c.Query ≠ "" then query ++ (" AND (" ++ c.Query ++ ")") else query

/-- The `CollectMetric` method: its outcome and the log afterwards.  The receiver is not
assigned to. -/
def CollectMetric (env : Env) (c : MetricCollector) (ctx : Context) (app : String)
    (log : List Event) : CollectOutcome × List Event :=
  let query := composeQuery c
  let log1 := log ++ [Event.expandMetricQuery ctx query app]
  let query1 := env.ExpandMetricQuery ctx query app
  match c.client with
  | none => (CollectOutcome.panicked, log1)
  | some cl =>
    let req : CountWorkflowExecutionsRequest := { Query := query1 }
    let log2 := log1 ++ [Event.countWorkflow cl ctx req]
    match env.CountWorkflow log1 cl ctx req with
    | Except.error err => (CollectOutcome.returned 0 (some err), log2)
    | Except.ok resp => (CollectOutcome.returned (float64 resp.Count) none, log2)

/-! ## The host driving the adapter -/

/-- What a host outside the package can do with an adapter: call one of its methods or
assign to one of its exported fields (`name` and `client` are not exported). -/
inductive Op where
  | callOpen
  | callClose
  | callCollectMetric (ctx : Context) (app : String)
  | setAddress (v : String)
  | setNamespace (v : String)
  | setCert (v : List Nat)
  | setKey (v : List Nat)
  | setAPIKey (v : String)
  | setQuery (v : String)
  deriving DecidableEq, Repr

/-- The effect of one host operation on the adapter and the log.  The values returned by
the methods go to the host and are not kept; a `CollectMetric` that panics leaves the
adapter as it was, for a host that recovers. -/
def step (env : Env) (st : MetricCollector × List Event) : Op → MetricCollector × List Event
  | Op.callOpen => (Open env st.1 st.2).2
  | Op.callClose => (Close st.1 st.2).2
  | Op.callCollectMetric ctx app => (st.1, (CollectMetric env st.1 ctx app st.2).2)
  | Op.setAddress v => ({ st.1 with Address := v }, st.2)
  | Op.setNamespace v => ({ st.1 with Namespace := v }, st.2)
  | Op.setCert v => ({ st.1 with Cert := v }, st.2)
  | Op.setKey v => ({ st.1 with Key := v }, st.2)
  | Op.setAPIKey v => ({ st.1 with APIKey := v }, st.2)
  | Op.setQuery v => ({ st.1 with Query := v }, st.2)

/-- A finite sequence of host operations, applied in order. -/
def run (env : Env) (ops : List Op) (st : MetricCollector × List Event) :
    MetricCollector × List Event :=
  ops.foldl (step env) st

/-! ## A concrete environment and adapter, used to evaluate the definitions -/

/-- A stub environment: the parser accepts exactly the pairs with both halves non-empty,
the dial succeeds with a handle numbered by the length of the log, the expansion routine
appends the application name, and the count request fails on an empty query. -/
def stubEnv : Env where
  X509KeyPair := fun cert key =>
    if cert.length = 0 ∨ key.length = 0 then Except.error (GoError.foreign 1)
    else Except.ok { id := cert.length + key.length }
  Dial := fun log _ => (some { handle := log.length }, none)
  ExpandMetricQuery := fun _ query app => query ++ app
  CountWorkflow := fun log _ _ req =>
    if req.Query = "" then Except.error (GoError.foreign 2)
    else Except.ok { Count := (log.length : Int) }

/-- An environment whose network calls all fail. -/
def failingEnv : Env where
  X509KeyPair := fun _ _ => Except.error (GoError.foreign 3)
  Dial := fun _ _ => (none, some (GoError.foreign 4))
  ExpandMetricQuery := fun _ query _ => query
  CountWorkflow := fun _ _ _ _ => Except.error (GoError.foreign 5)

/-- A context with no outgoing metadata. -/
def background : Context :=
  { tag := 0, outgoingMD := [] }

/-- An adapter with a handle and a query filter, as it is between a successful `Open`
and a `Close`. -/
def sampleOpened : MetricCollector :=
  { name := "temporal", client := some { handle := 7 }, Address := "host:7233",
    Namespace := "prod", Cert := [], Key := [], APIKey := "", Query := "TaskQueue=\"q\"" }

/-- An adapter configured with a certificate but no private key. -/
def sampleCertOnly : MetricCollector :=
  { NewMetricCollector "temporal" with Address := "host:7233", Namespace := "prod", Cert := [1] }

/-- An adapter configured with a certificate pair and an API key. -/
def sampleBoth : MetricCollector :=
  { NewMetricCollector "temporal" with
    Address := "host:7233", Namespace := "prod", Cert := [1, 2], Key := [3], APIKey := "secret" }

/-! ## Reading the log -/

lemma dialCalls_append (l₁ l₂ : List Event) :
    dialCalls (l₁ ++ l₂) = dialCalls l₁ ++ dialCalls l₂ := by
  induction l₁ with
  | nil => rfl
  | cons e rest ih => cases e <;> simp [dialCalls, ih]

lemma closeCalls_append (l₁ l₂ : List Event) :
    closeCalls (l₁ ++ l₂) = closeCalls l₁ ++ closeCalls l₂ := by
  induction l₁ with
  | nil => rfl
  | cons e rest ih => cases e <;> simp [closeCalls, ih]

lemma countCalls_append (l₁ l₂ : List Event) :
    countCalls (l₁ ++ l₂) = countCalls l₁ ++ countCalls l₂ := by
  induction l₁ with
  | nil => rfl
  | cons e rest ih => cases e <;> simp [countCalls, ih]

lemma expandCalls_append (l₁ l₂ : List Event) :
    expandCalls (l₁ ++ l₂) = expandCalls l₁ ++ expandCalls l₂ := by
  induction l₁ with
  | nil => rfl
  | cons e rest ih => cases e <;> simp [expandCalls, ih]

lemma parseCalls_append (l₁ l₂ : List Event) :
    parseCalls (l₁ ++ l₂) = parseCalls l₁ ++ parseCalls l₂ := by
  induction l₁ with
  | nil => rfl
  | cons e rest ih => cases e <;> simp [parseCalls, ih]

/-! ## The integer to float64 conversion -/

lemma droppedBits_small (fuel m : Nat) (h : m < 2 ^ 53) : droppedBits fuel m = 0 := by
  cases fuel with
  | zero => rfl
  | succ k =>
    unfold droppedBits
    rw [if_pos h]

lemma roundTo53Bits_exact (m : Nat) (h : m ≤ 2 ^ 53) : roundTo53Bits m = m := by
  rcases Nat.lt_or_eq_of_le h with hlt | heq
  · simp [roundTo53Bits, droppedBits_small m m hlt, Nat.mod_one]
  · subst heq
    decide

lemma float64_exact (n : Int) (h : n.natAbs ≤ 2 ^ 53) : float64 n = n := by
  unfold float64
  rw [roundTo53Bits_exact _ h]
  split_ifs with hneg
  · omega
  · omega

lemma float64_ties_to_even :
    float64 9007199254740993 = 9007199254740992 ∧
    float64 9007199254740995 = 9007199254740996 ∧
    float64 (-9223372036854775807) = -9223372036854775808 := by
  decide

/-! ## Open: required fields -/

/-- C1. When `Address` or `Namespace` is empty, `Open` returns one of the two configuration
errors built by `fmt.Errorf`, whatever the other fields hold; the receiver (hence its
handle) and the log (hence the list of dials) are what they were before the call; and on
a freshly constructed adapter the handle is nil after `Open`. -/
theorem Open_missing_required_field (env : Env) (c : MetricCollector) (log : List Event)
    (h : c.Address = "" ∨ c.Namespace = "") :
    ((Open env c log).1 = some (GoError.errorf "temporal address required") ∨
      (Open env c log).1 = some (GoError.errorf "temporal namespace required")) ∧
    (Open env c log).1 ≠ none ∧
    (Open env c log).2.1 = c ∧
    (Open env c log).2.1.client = c.client ∧
    (Open env c log).2.2 = log ∧
    dialCalls (Open env c log).2.2 = dialCalls log ∧
    (∀ n : String, (Open env (NewMetricCollector n) log).2.1.client = none) := by
  have fresh : ∀ n : String, (Open env (NewMetricCollector n) log).2.1.client = none := by
    intro n
    simp [Open, NewMetricCollector]
  by_cases ha : c.Address = ""
  · refine ⟨?_, ?_, ?_, ?_, ?_, ?_, fresh⟩ <;> simp [Open, ha]
  · have hn : c.Namespace = "" := by
      rcases h with h | h
      · exact absurd h ha
      · exact h
    refine ⟨?_, ?_, ?_, ?_, ?_, ?_, fresh⟩ <;> simp [Open, ha, hn]

/-- Witness for C1: an adapter with an address, a certificate and an API key but no
namespace. -/
theorem Open_missing_required_field_witness :
    (({ NewMetricCollector "m" with Address := "host:7233", Cert := [1], APIKey := "k" } :
        MetricCollector).Address = "" ∨
      ({ NewMetricCollector "m" with Address := "host:7233", Cert := [1], APIKey := "k" } :
        MetricCollector).Namespace = "") ∧
    (Open stubEnv { NewMetricCollector "m" with Address := "host:7233", Cert := [1], APIKey := "k" }
        []).1 = some (GoError.errorf "temporal namespace required") := by
  have h := Open_missing_required_field stubEnv
    { NewMetricCollector "m" with Address := "host:7233", Cert := [1], APIKey := "k" } []
    (Or.inr rfl)
  refine ⟨Or.inr rfl, ?_⟩
  rcases h.1 with h1 | h1
  · exact absurd h1 (by decide)
  · exact h1

/-! ## Open: credentials -/

lemma dialCalls_dialAndStore (env : Env) (c : MetricCollector) (opt : Options)
    (log : List Event) :
    dialCalls (dialAndStore env c opt log).2.2 = dialCalls log ++ [opt] := by
  simp [dialAndStore, dialCalls_append, dialCalls]

lemma parseCalls_dialAndStore (env : Env) (c : MetricCollector) (opt : Options)
    (log : List Event) :
    parseCalls (dialAndStore env c opt log).2.2 = parseCalls log := by
  simp [dialAndStore, parseCalls_append, parseCalls]

lemma applyAPIKey_empty (c : MetricCollector) (opt : Options) (hk : c.APIKey = "") :
    applyAPIKey c opt = opt := by
  simp [applyAPIKey, hk]

lemma length_ne_zero_or (c : MetricCollector) (h : c.Cert ≠ [] ∨ c.Key ≠ []) :
    c.Cert.length ≠ 0 ∨ c.Key.length ≠ 0 := by
  rcases h with h | h
  · exact Or.inl (fun h0 => h (List.length_eq_zero.mp h0))
  · exact Or.inr (fun h0 => h (List.length_eq_zero.mp h0))

/-- C5. With `Address` and `Namespace` set and at least one of `Cert` and `Key` non-empty,
`Open` calls the key-pair parser once on the two fields.  If the parser fails with `e`,
`Open` returns `e` itself, the receiver is unchanged and no dial is added to the log,
whatever `APIKey` holds.  If the parser succeeds and `APIKey` is empty, exactly one dial
is added, for the address and namespace of the adapter, and its TLS config holds the
parsed pair as its only certificate. -/
theorem Open_certificate_pair (env : Env) (c : MetricCollector) (log : List Event)
    (ha : c.Address ≠ "") (hn : c.Namespace ≠ "") (hck : c.Cert ≠ [] ∨ c.Key ≠ []) :
    parseCalls (Open env c log).2.2 = parseCalls log ++ [(c.Cert, c.Key)] ∧
    (∀ e : GoError, env.X509KeyPair c.Cert c.Key = Except.error e →
      (Open env c log).1 = some e ∧
      (Open env c log).2.1 = c ∧
      (Open env c log).2.2 = log ++ [Event.x509KeyPair c.Cert c.Key] ∧
      dialCalls (Open env c log).2.2 = dialCalls log) ∧
    (∀ cert : Certificate, env.X509KeyPair c.Cert c.Key = Except.ok cert → c.APIKey = "" →
      ∃ opt : Options,
        dialCalls (Open env c log).2.2 = dialCalls log ++ [opt] ∧
        opt.ConnectionOptions.TLS = some { Certificates := [cert] } ∧
        opt.HostPort = c.Address ∧ opt.Namespace = c.Namespace) := by
  have hlen := length_ne_zero_or c hck
  refine ⟨?_, ?_, ?_⟩
  · unfold Open
    rw [if_neg ha, if_neg hn, if_pos hlen]
    cases env.X509KeyPair c.Cert c.Key with
    | error e => simp [parseCalls_append, parseCalls]
    | ok cert => simp [parseCalls_dialAndStore, parseCalls_append, parseCalls]
  · intro e he
    unfold Open
    rw [if_neg ha, if_neg hn, if_pos hlen]
    simp [he, dialCalls_append, dialCalls]
  · intro cert hcert hk
    unfold Open
    rw [if_neg ha, if_neg hn, if_pos hlen]
    simp only [hcert]
    rw [applyAPIKey_empty c _ hk]
    refine ⟨{ HostPort := c.Address, Namespace := c.Namespace,
              ConnectionOptions := { TLS := some { Certificates := [cert] }, DialOptions := [] },
              Credentials := none }, ?_, rfl, rfl, rfl⟩
    rw [dialCalls_dialAndStore]
    simp [dialCalls_append, dialCalls]

/-- Witness for C5: only the certificate is supplied, and the stub parser rejects the
pair with error 1. -/
theorem Open_certificate_pair_witness :
    sampleCertOnly.Address ≠ "" ∧ sampleCertOnly.Namespace ≠ "" ∧
    (sampleCertOnly.Cert ≠ [] ∨ sampleCertOnly.Key ≠ []) ∧
    (Open stubEnv sampleCertOnly []).1 = some (GoError.foreign 1) ∧
    dialCalls (Open stubEnv sampleCertOnly []).2.2 = dialCalls [] :=
  ⟨by decide, by decide, Or.inl (by decide),
   ((Open_certificate_pair stubEnv sampleCertOnly [] (by decide) (by decide)
      (Or.inl (by decide))).2.1 (GoError.foreign 1) rfl).1,
   ((Open_certificate_pair stubEnv sampleCertOnly [] (by decide) (by decide)
      (Or.inl (by decide))).2.1 (GoError.foreign 1) rfl).2.2.2⟩

lemma dialCalls_Open_apiKey (env : Env) (c : MetricCollector) (log : List Event)
    (ha : c.Address ≠ "") (hn : c.Namespace ≠ "") (hk : c.APIKey ≠ "")
    (hp : (c.Cert = [] ∧ c.Key = []) ∨
      ∃ cert : Certificate, env.X509KeyPair c.Cert c.Key = Except.ok cert) :
    dialCalls (Open env c log).2.2 =
      dialCalls log ++
        [{ HostPort := c.Address, Namespace := c.Namespace,
           ConnectionOptions :=
             { TLS := some { Certificates := [] },
               DialOptions := [DialOption.WithUnaryInterceptor namespaceInterceptor] },
           Credentials := some (Credentials.NewAPIKeyStaticCredentials c.APIKey) }] := by
  unfold Open
  rw [if_neg ha, if_neg hn]
  by_cases hlen : c.Cert.length ≠ 0 ∨ c.Key.length ≠ 0
  · rw [if_pos hlen]
    rcases hp with ⟨h1, h2⟩ | ⟨cert, hcert⟩
    · simp [h1, h2] at hlen
    · simp only [hcert]
      rw [dialCalls_dialAndStore]
      simp [applyAPIKey, hk, dialCalls_append, dialCalls]
  · rw [if_neg hlen, dialCalls_dialAndStore]
    simp [applyAPIKey, hk]

lemma Open_keeps_Namespace (env : Env) (c : MetricCollector) (log : List Event) :
    (Open env c log).2.1.Namespace = c.Namespace := by
  unfold Open
  split_ifs
  · rfl
  · rfl
  · cases env.X509KeyPair c.Cert c.Key <;> rfl
  · rfl

/-- C6. With `Address`, `Namespace` and `APIKey` set, and `Cert`/`Key` both empty or
accepted by the parser, `Open` adds exactly one dial to the log, whose options have
(a) a TLS config that is not nil (the bare `&tls.Config{}`), (b) exactly one dial option,
a unary interceptor that, for every outgoing call and every state `cur` of the adapter at
the time of the call, hands the call to the underlying invoker once, with the same
method, request, reply, connection and call options and with the caller's context to
whose outgoing metadata the pair `temporal-namespace`, `cur.Namespace` is appended, and
(c) the static API-key credentials built from `APIKey`.  The pair carries the
`Namespace` field of the adapter as it is when the call is made, since the closure reads
it through the receiver; `Open` leaves the field as it was, so for the adapter as `Open`
leaves it the pair carries the `Namespace` the adapter was opened with. -/
theorem Open_apiKey_options (env : Env) (c : MetricCollector) (log : List Event)
    (ha : c.Address ≠ "") (hn : c.Namespace ≠ "") (hk : c.APIKey ≠ "")
    (hp : (c.Cert = [] ∧ c.Key = []) ∨
      ∃ cert : Certificate, env.X509KeyPair c.Cert c.Key = Except.ok cert) :
    ∃ (opt : Options) (f : UnaryClientInterceptor),
      dialCalls (Open env c log).2.2 = dialCalls log ++ [opt] ∧
      opt.ConnectionOptions.TLS = some { Certificates := [] } ∧
      opt.ConnectionOptions.TLS ≠ none ∧
      opt.ConnectionOptions.DialOptions = [DialOption.WithUnaryInterceptor f] ∧
      (∀ (cur : MetricCollector) (ctx : Context) (method : String) (req reply cc : Nat)
          (invoker : UnaryInvoker) (opts : List Nat) (wire : List UnaryCall),
        f cur ctx method req reply cc invoker opts wire =
          invoker { tag := ctx.tag,
                    outgoingMD := ctx.outgoingMD ++ [("temporal-namespace", cur.Namespace)] }
            method req reply cc opts wire) ∧
      (∀ (cur : MetricCollector) (ctx : Context) (method : String) (req reply cc : Nat)
          (opts : List Nat) (wire : List UnaryCall),
        f cur ctx method req reply cc sendOnWire opts wire =
          (none, wire ++
            [{ ctx := { tag := ctx.tag,
                        outgoingMD := ctx.outgoingMD ++ [("temporal-namespace", cur.Namespace)] },
               method := method, req := req, reply := reply, cc := cc, opts := opts }])) ∧
      (∀ (ctx : Context) (method : String) (req reply cc : Nat)
          (invoker : UnaryInvoker) (opts : List Nat) (wire : List UnaryCall),
        f (Open env c log).2.1 ctx method req reply cc invoker opts wire =
          invoker { tag := ctx.tag,
                    outgoingMD := ctx.outgoingMD ++ [("temporal-namespace", c.Namespace)] }
            method req reply cc opts wire) ∧
      opt.Credentials = some (Credentials.NewAPIKeyStaticCredentials c.APIKey) ∧
      opt.HostPort = c.Address ∧ opt.Namespace = c.Namespace ∧
      (Open env c log).2.1.Namespace = c.Namespace := by
  refine ⟨_, namespaceInterceptor, dialCalls_Open_apiKey env c log ha hn hk hp, rfl, ?_, rfl,
    ?_, ?_, ?_, rfl, rfl, rfl, Open_keeps_Namespace env c log⟩
  · simp
  · intro cur ctx method req reply cc invoker opts wire
    rfl
  · intro cur ctx method req reply cc opts wire
    rfl
  · intro ctx method req reply cc invoker opts wire
    simp only [namespaceInterceptor, AppendToOutgoingContext, Open_keeps_Namespace]

/-- Witness for C6: the adapter `sampleBoth`, whose pair the stub parser accepts; a call
intercepted while the adapter is in that state reaches the wire with the pair
`temporal-namespace`, `prod` appended to its metadata. -/
theorem Open_apiKey_options_witness :
    sampleBoth.Address ≠ "" ∧ sampleBoth.Namespace ≠ "" ∧ sampleBoth.APIKey ≠ "" ∧
    stubEnv.X509KeyPair sampleBoth.Cert sampleBoth.Key = Except.ok { id := 3 } ∧
    ∃ (opt : Options) (f : UnaryClientInterceptor),
      dialCalls (Open stubEnv sampleBoth []).2.2 = dialCalls [] ++ [opt] ∧
      opt.ConnectionOptions.TLS = some { Certificates := [] } ∧
      opt.ConnectionOptions.DialOptions = [DialOption.WithUnaryInterceptor f] ∧
      f sampleBoth { tag := 1, outgoingMD := [("k", "v")] } "Count" 2 3 4 sendOnWire [5] [] =
        (none,
          [{ ctx := { tag := 1, outgoingMD := [("k", "v"), ("temporal-namespace", "prod")] },
             method := "Count", req := 2, reply := 3, cc := 4, opts := [5] }]) ∧
      opt.Credentials = some (Credentials.NewAPIKeyStaticCredentials "secret") := by
  obtain ⟨opt, f, h1, h2, _, h3, _, h4, _, h5, _⟩ :=
    Open_apiKey_options stubEnv sampleBoth [] (by decide) (by decide) (by decide)
      (Or.inr ⟨{ id := 3 }, rfl⟩)
  exact ⟨by decide, by decide, by decide, rfl, opt, f, h1, h2, h3,
    h4 sampleBoth { tag := 1, outgoingMD := [("k", "v")] } "Count" 2 3 4 [5] [], h5⟩

/-- C10. With `Address`, `Namespace` and `APIKey` set and a `Cert`/`Key` pair accepted by
the parser, the options `Open` hands to the dial are those it hands for the same adapter
with `Cert` and `Key` emptied: the API-key branch replaces the connection options built
from the pair, and the TLS config that reaches the dial has an empty certificate
list. -/
theorem Open_apiKey_replaces_certificate (env : Env) (c : MetricCollector) (log : List Event)
    (ha : c.Address ≠ "") (hn : c.Namespace ≠ "") (hk : c.APIKey ≠ "")
    (hp : ∃ cert : Certificate, env.X509KeyPair c.Cert c.Key = Except.ok cert) :
    dialCalls (Open env c log).2.2 =
      dialCalls (Open env { c with Cert := [], Key := [] } log).2.2 ∧
    ∃ opt : Options,
      dialCalls (Open env c log).2.2 = dialCalls log ++ [opt] ∧
      opt.ConnectionOptions.TLS = some { Certificates := [] } := by
  have h1 := dialCalls_Open_apiKey env c log ha hn hk (Or.inr hp)
  have h2 := dialCalls_Open_apiKey env { c with Cert := [], Key := [] } log ha hn hk
    (Or.inl ⟨rfl, rfl⟩)
  exact ⟨h1.trans h2.symm, _, h1, rfl⟩

/-- Witness for C10: the adapter `sampleBoth`, whose pair the stub parser accepts. -/
theorem Open_apiKey_replaces_certificate_witness :
    sampleBoth.Address ≠ "" ∧ sampleBoth.Namespace ≠ "" ∧ sampleBoth.APIKey ≠ "" ∧
    (sampleBoth.Cert ≠ [] ∧ sampleBoth.Key ≠ []) ∧
    stubEnv.X509KeyPair sampleBoth.Cert sampleBoth.Key = Except.ok { id := 3 } ∧
    dialCalls (Open stubEnv sampleBoth []).2.2 =
      dialCalls (Open stubEnv { sampleBoth with Cert := [], Key := [] } []).2.2 :=
  ⟨by decide, by decide, by decide, ⟨by decide, by decide⟩, rfl,
   (Open_apiKey_replaces_certificate stubEnv sampleBoth [] (by decide) (by decide) (by decide)
      ⟨{ id := 3 }, rfl⟩).1⟩

/-! ## CollectMetric -/

/-- C2. The query handed to the expansion routine is the base predicate when `Query` is
empty and the base predicate followed by ` AND (f)` when `Query` is the non-empty string
`f`; the call logs exactly one expansion of that string for the given context and
application id, and, when the handle is not nil, one count request whose `Query` is the
output of the expansion routine on that string and that application id. -/
theorem CollectMetric_query (env : Env) (c : MetricCollector) (ctx : Context) (app : String)
    (log : List Event) :
    (c.Query = "" → composeQuery c = "ExecutionStatus=\"Running\"") ∧
    (∀ f : String, c.Query = f → f ≠ "" →
      composeQuery c = "ExecutionStatus=\"Running\" AND (" ++ f ++ ")") ∧
    (CollectMetric env c ctx app log).2 =
      log ++ Event.expandMetricQuery ctx (composeQuery c) app ::
        (match c.client with
         | none => []
         | some cl =>
           [Event.countWorkflow cl ctx
             { Query := env.ExpandMetricQuery ctx (composeQuery c) app }]) ∧
    expandCalls (CollectMetric env c ctx app log).2 =
      expandCalls log ++ [(ctx, composeQuery c, app)] ∧
    (∀ cl : Client, c.client = some cl →
      countCalls (CollectMetric env c ctx app log).2 =
        countCalls log ++
          [(cl, ctx, { Query := env.ExpandMetricQuery ctx (composeQuery c) app })]) := by
  refine ⟨?_, ?_, ?_, ?_, ?_⟩
  · intro h
    simp [composeQuery, h]
  · intro f hf hne
    subst hf
    have hlit : "ExecutionStatus=\"Running\"" ++ " AND (" = "ExecutionStatus=\"Running\" AND (" := by
      decide
    simp only [composeQuery, ne_eq, hne, not_false_eq_true, if_true]
    rw [← hlit, String.append_assoc, String.append_assoc, String.append_assoc]
  · unfold CollectMetric
    cases hc : c.client with
    | none => simp
    | some cl =>
      simp only []
      cases env.CountWorkflow _ cl ctx _ <;> simp
  · unfold CollectMetric
    cases hc : c.client with
    | none => simp [expandCalls_append, expandCalls]
    | some cl =>
      simp only []
      cases env.CountWorkflow _ cl ctx _ <;> simp [expandCalls_append, expandCalls]
  · intro cl hc
    unfold CollectMetric
    simp only [hc]
    cases env.CountWorkflow _ cl ctx _ <;> simp [countCalls_append, countCalls]

/-- Witness for C2: the adapter `sampleOpened`, whose filter is not empty. -/
theorem CollectMetric_query_witness :
    composeQuery sampleOpened = "ExecutionStatus=\"Running\" AND (" ++ "TaskQueue=\"q\"" ++ ")" ∧
    countCalls (CollectMetric stubEnv sampleOpened background "app" []).2 =
      countCalls [] ++
        [({ handle := 7 }, background,
          { Query := stubEnv.ExpandMetricQuery background (composeQuery sampleOpened) "app" })] :=
  ⟨(CollectMetric_query stubEnv sampleOpened background "app" []).2.1 _ rfl (by decide),
   (CollectMetric_query stubEnv sampleOpened background "app" []).2.2.2.2 _ rfl⟩

/-- C3. On an adapter whose handle is not nil, when the count request (the one built from
the expanded query, sent after the expansion was logged) succeeds with count `N`,
`CollectMetric` returns `(float64(N), nil)`; the conversion is the identity on every
count of magnitude at most `2 ^ 53`. -/
theorem CollectMetric_success (env : Env) (c : MetricCollector) (ctx : Context) (app : String)
    (log : List Event) (cl : Client) (N : Int)
    (hc : c.client = some cl)
    (hok : env.CountWorkflow (log ++ [Event.expandMetricQuery ctx (composeQuery c) app]) cl ctx
        { Query := env.ExpandMetricQuery ctx (composeQuery c) app } = Except.ok { Count := N }) :
    (CollectMetric env c ctx app log).1 = CollectOutcome.returned (float64 N) none ∧
    (N.natAbs ≤ 2 ^ 53 → float64 N = N) := by
  refine ⟨?_, float64_exact N⟩
  unfold CollectMetric
  simp only [hc, hok]

/-- Witness for C3: the stub transport answers the first request with count 1. -/
theorem CollectMetric_success_witness :
    sampleOpened.client = some { handle := 7 } ∧
    (CollectMetric stubEnv sampleOpened background "app" []).1 =
      CollectOutcome.returned (float64 1) none :=
  ⟨rfl, (CollectMetric_success stubEnv sampleOpened background "app" [] { handle := 7 } 1
    rfl rfl).1⟩

/-- C4. On an adapter whose handle is not nil, when the count request fails with error `e`,
`CollectMetric` returns `(0, e)` with `e` itself, and the call adds exactly one count
request to the log: the transport is called once. -/
theorem CollectMetric_failure (env : Env) (c : MetricCollector) (ctx : Context) (app : String)
    (log : List Event) (cl : Client) (e : GoError)
    (hc : c.client = some cl)
    (herr : env.CountWorkflow (log ++ [Event.expandMetricQuery ctx (composeQuery c) app]) cl ctx
        { Query := env.ExpandMetricQuery ctx (composeQuery c) app } = Except.error e) :
    (CollectMetric env c ctx app log).1 = CollectOutcome.returned 0 (some e) ∧
    (CollectMetric env c ctx app log).2 =
      log ++ [Event.expandMetricQuery ctx (composeQuery c) app,
        Event.countWorkflow cl ctx { Query := env.ExpandMetricQuery ctx (composeQuery c) app }] ∧
    (countCalls (CollectMetric env c ctx app log).2).length = (countCalls log).length + 1 := by
  unfold CollectMetric
  simp only [hc, herr]
  refine ⟨trivial, ?_, ?_⟩
  · simp
  · simp [countCalls_append, countCalls]

/-- Witness for C4: a transport whose count request fails with error 5. -/
theorem CollectMetric_failure_witness :
    sampleOpened.client = some { handle := 7 } ∧
    (CollectMetric failingEnv sampleOpened background "app" []).1 =
      CollectOutcome.returned 0 (some (GoError.foreign 5)) ∧
    (countCalls (CollectMetric failingEnv sampleOpened background "app" []).2).length =
      (countCalls []).length + 1 :=
  ⟨rfl,
   (CollectMetric_failure failingEnv sampleOpened background "app" [] { handle := 7 }
    (GoError.foreign 5) rfl rfl).1,
   (CollectMetric_failure failingEnv sampleOpened background "app" [] { handle := 7 }
    (GoError.foreign 5) rfl rfl).2.2⟩

/-! ## Close and Name -/

/-- C7. In every state `Close` returns nil and leaves every field of the receiver as it
was; when the handle is nil it adds nothing to the log, so the release operation of the
transport is not invoked. -/
theorem Close_returns_nil (c : MetricCollector) (log : List Event) :
    (Close c log).1 = none ∧
    (Close c log).2.1 = c ∧
    (c.client = none →
      (Close c log).2.2 = log ∧ closeCalls (Close c log).2.2 = closeCalls log) := by
  unfold Close
  cases hc : c.client with
  | none => simp
  | some cl => simp

/-- Witness for C7: a freshly constructed adapter. -/
theorem Close_returns_nil_witness :
    (NewMetricCollector "temporal").client = none ∧
    (Close (NewMetricCollector "temporal") []).1 = none ∧
    closeCalls (Close (NewMetricCollector "temporal") []).2.2 = closeCalls [] :=
  ⟨rfl, (Close_returns_nil (NewMetricCollector "temporal") []).1,
   ((Close_returns_nil (NewMetricCollector "temporal") []).2.2 rfl).2⟩

lemma Open_keeps_name (env : Env) (c : MetricCollector) (log : List Event) :
    (Open env c log).2.1.name = c.name := by
  unfold Open
  split_ifs
  · rfl
  · rfl
  · cases env.X509KeyPair c.Cert c.Key <;> rfl
  · rfl

lemma Close_keeps_receiver (c : MetricCollector) (log : List Event) :
    (Close c log).2.1 = c := by
  unfold Close
  cases c.client <;> rfl

lemma step_keeps_name (env : Env) (st : MetricCollector × List Event) (op : Op) :
    (step env st op).1.name = st.1.name := by
  cases op with
  | callOpen => exact Open_keeps_name env st.1 st.2
  | callClose => simp [step, Close_keeps_receiver]
  | _ => rfl

lemma run_keeps_name (env : Env) (ops : List Op) (st : MetricCollector × List Event) :
    (run env ops st).1.name = st.1.name := by
  induction ops generalizing st with
  | nil => rfl
  | cons op rest ih =>
    have h := ih (step env st op)
    rw [step_keeps_name] at h
    exact h

/-- C8. After any finite sequence of `Open`, `Close` and `CollectMetric` calls and of
assignments to the exported fields, applied to `NewMetricCollector(n)` in any environment,
`Name()` returns `n`; and `NewMetricCollector(n)` has name `n`, a nil handle and every
configuration field at its zero value. -/
theorem Name_constant (env : Env) (n : String) (ops : List Op) (log : List Event) :
    Name (run env ops (NewMetricCollector n, log)).1 = n ∧
    Name (NewMetricCollector n) = n ∧
    NewMetricCollector n =
      { name := n, client := none, Address := "", Namespace := "", Cert := [], Key := [],
        APIKey := "", Query := "" } :=
  ⟨run_keeps_name env ops (NewMetricCollector n, log), rfl, rfl⟩

lemma run_replicate_callClose (env : Env) (c : MetricCollector) (cl : Client)
    (hc : c.client = some cl) (k : Nat) (log : List Event) :
    run env (List.replicate k Op.callClose) (c, log) =
      (c, log ++ List.replicate k (Event.clientClose cl)) := by
  induction k generalizing log with
  | zero => simp [run]
  | succ k ih =>
    have hstep : step env (c, log) Op.callClose = (c, log ++ [Event.clientClose cl]) := by
      simp [step, Close, hc]
    have h := ih (log ++ [Event.clientClose cl])
    simp only [run, List.replicate_succ, List.foldl_cons, hstep] at h ⊢
    rw [h, List.append_assoc]
    rfl

lemma closeCalls_replicate (cl : Client) (k : Nat) :
    closeCalls (List.replicate k (Event.clientClose cl)) = List.replicate k cl := by
  induction k with
  | zero => rfl
  | succ k ih => simp [List.replicate_succ, closeCalls, ih]

/-- C9, as the claim states it, fails: on the adapter `sampleOpened`, whose handle is
not nil, the handle is still the same after `Close`, and a second `Close` releases it a
second time. -/
theorem Close_clears_handle_counterexample :
    sampleOpened.client ≠ none ∧
    (Close sampleOpened []).2.1.client = some { handle := 7 } ∧
    (Close sampleOpened []).2.1.client ≠ none ∧
    closeCalls (Close (Close sampleOpened []).2.1 (Close sampleOpened []).2.2).2.2 =
      [{ handle := 7 }, { handle := 7 }] := by
  decide

/-- C9, amended. On an adapter whose handle is not nil, `Close` releases the handle once,
returns nil and leaves the receiver, handle included, as it was; the handle is not
cleared, so `k` calls of `Close` in a row release it `k` times. -/
theorem Close_releases_and_keeps_handle (env : Env) (c : MetricCollector) (log : List Event)
    (cl : Client) (hc : c.client = some cl) :
    (Close c log).1 = none ∧
    (Close c log).2.1 = c ∧
    (Close c log).2.1.client = some cl ∧
    (Close c log).2.2 = log ++ [Event.clientClose cl] ∧
    closeCalls (Close c log).2.2 = closeCalls log ++ [cl] ∧
    (∀ k : Nat,
      (run env (List.replicate k Op.callClose) (c, log)).1 = c ∧
      closeCalls (run env (List.replicate k Op.callClose) (c, log)).2 =
        closeCalls log ++ List.replicate k cl) := by
  refine ⟨?_, ?_, ?_, ?_, ?_, ?_⟩
  · simp [Close, hc]
  · simp [Close, hc]
  · simp [Close, hc]
  · simp [Close, hc]
  · simp [Close, hc, closeCalls_append, closeCalls]
  · intro k
    rw [run_replicate_callClose env c cl hc k log]
    exact ⟨rfl, by rw [closeCalls_append, closeCalls_replicate]⟩

/-- Witness for C9, amended: the adapter `sampleOpened`, closed three times. -/
theorem Close_releases_and_keeps_handle_witness :
    sampleOpened.client = some { handle := 7 } ∧
    (Close sampleOpened []).2.1.client = some { handle := 7 } ∧
    closeCalls (run stubEnv (List.replicate 3 Op.callClose) (sampleOpened, [])).2 =
      closeCalls [] ++ List.replicate 3 { handle := 7 } :=
  ⟨rfl,
   (Close_releases_and_keeps_handle stubEnv sampleOpened [] { handle := 7 } rfl).2.2.1,
   ((Close_releases_and_keeps_handle stubEnv sampleOpened [] { handle := 7 } rfl).2.2.2.2.2
      3).2⟩

end Temporal
